import Mathlib

/-!
Shallow embedding of `src/driver/src/stream_switch/xaie_ss.c` (AIE stream
switch configuration) and proofs about its specification.

Machine integers are modelled as `Nat` with explicit reductions where the C
code uses fixed-width arithmetic: `u8`/`u32`/`u64` locals, stores and
parameter conversions become `% 2^8`, `% 2^32`, `% 2^64`.  A register write
`XAieGbl_Write32(Addr, Val)` becomes an `(Addr, Val)` pair appended to the
returned write list.  An out-of-bounds access into one of the per-tile-type
descriptor arrays (undefined behaviour in C) is modelled by returning `none`;
every defined execution returns `some (returnCode, writes)`.
-/

namespace XAieSS

/-- Reduction of a natural number to the value of its low 8 bits, modelling a
C `u8` store or parameter conversion. -/
def u8 (n : Nat) : Nat := n % 2 ^ 8

/-- Reduction modelling a C `u32` store or conversion. -/
def u32 (n : Nat) : Nat := n % 2 ^ 32

/-- Reduction modelling a C `u64` store or conversion. -/
def u64 (n : Nat) : Nat := n % 2 ^ 64

/-- Return codes used by `xaie_ss.c`.  The spec names them InvalidDevice and
InvalidArgs (both `XAIE_INVALID_ARGS` in the code), InvalidTile
(`XAIE_INVALID_TILE`), and InvalidPortType and InvalidPort (both
`XAIE_ERR_STREAM_PORT` in the code). -/
inductive AieRC where
  | XAIE_OK
  | XAIE_INVALID_ARGS
  | XAIE_INVALID_TILE
  | XAIE_ERR_STREAM_PORT
  deriving DecidableEq, Repr

/-- Constant `XAIE_ENABLE` (1, per the source comments "1-Enable,0-Disable"). -/
def XAIE_ENABLE : Nat := 1

/-- Constant `XAIE_DISABLE` (0). -/
def XAIE_DISABLE : Nat := 0

/-- Modelled from the spec: the device readiness flag compared by every entry
point (`XAIE_COMPONENT_IS_READY`, defined in a header not under `src/`); only
equality with it is ever tested, so its numeric value is immaterial. -/
def XAIE_COMPONENT_IS_READY : Nat := 1

/-- Modelled from the spec: the terminating sentinel of the port-type
enumeration (`SS_PORT_TYPE_MAX`, defined in a header not under `src/`), used
for range checks; the descriptor arrays have this many entries. -/
def SS_PORT_TYPE_MAX : Nat := 9

/-- Modelled from the spec: the sentinel returned by tile-type resolution when
a location resolves to no known tile type (`XAIEGBL_TILE_TYPE_MAX`, defined in
a header not under `src/`); only equality with it is ever tested. -/
def XAIEGBL_TILE_TYPE_MAX : Nat := 4

/-- Modelled from the spec: the "do not drop header" member of the
packet-header enumeration, passed by `XAie_StrmPktSwMstrPortDisable`. -/
def XAIE_SS_PKT_DONOT_DROP_HEADER : Nat := 0

/-- Source constant `XAIE_SS_MASTER_PORT_ARBITOR_LSB`. -/
def XAIE_SS_MASTER_PORT_ARBITOR_LSB : Nat := 0

/-- Source constant `XAIE_SS_MASTER_PORT_ARBITOR_MASK`. -/
def XAIE_SS_MASTER_PORT_ARBITOR_MASK : Nat := 0x7

/-- Source constant `XAIE_SS_MASTER_PORT_MSELEN_LSB`. -/
def XAIE_SS_MASTER_PORT_MSELEN_LSB : Nat := 0x3

/-- Source constant `XAIE_SS_MASTER_PORT_MSELEN_MASK`. -/
def XAIE_SS_MASTER_PORT_MSELEN_MASK : Nat := 0x78

/-- Source constant `XAIE_SS_ARBITOR_MAX`. -/
def XAIE_SS_ARBITOR_MAX : Nat := 0x7

/-- Source constant `XAIE_SS_MSEL_MAX`. -/
def XAIE_SS_MSEL_MAX : Nat := 0x3

/-- Source constant `XAIE_SS_MASK`. -/
def XAIE_SS_MASK : Nat := 0x1F

/-- Source constant `XAIE_SS_MSELEN_MAX`. -/
def XAIE_SS_MSELEN_MAX : Nat := 0xF

/-- Source constant `XAIE_PACKETID_MAX`. -/
def XAIE_PACKETID_MAX : Nat := 0x1F

/-- Modelled from the spec: §4.1 `packField` — the bit-field pack primitive
the source uses as `XAie_SetField` (its macro definition is in a header not
under `src/`): the value shifted into `lsb` position, masked by the
pre-shifted field mask. -/
def XAie_SetField (Val Lsb Mask : Nat) : Nat := (Val <<< Lsb) &&& Mask

/-- Modelled from the spec: §4.1 `unpackField` — the bit-field extract
primitive the source uses as `XAie_GetField`. -/
def XAie_GetField (Val Lsb Mask : Nat) : Nat := (Val &&& Mask) >>> Lsb

/-- Modelled from the spec: §3 BitField — a (lsb, pre-shifted mask)
descriptor (`XAie_RegFldAttr` in headers not under `src/`). -/
structure XAie_RegFldAttr where
  Lsb : Nat
  Mask : Nat
  deriving DecidableEq, Repr

/-- Modelled from the spec: §3 — one port-class entry {base address, port
count} (`XAie_StrmPort` in headers not under `src/`). -/
structure XAie_StrmPort where
  PortBaseAddr : Nat
  NumPorts : Nat
  deriving DecidableEq, Repr

/-- Modelled from the spec: §3 StreamModuleDescriptor (`XAie_StrmMod` in
headers not under `src/`), with exactly the fields the source dereferences.
The three per-port-type arrays are lists indexed by the port-type tag. -/
structure XAie_StrmMod where
  SlvConfigBaseAddr : Nat
  PortOffset : Nat
  SlvEn : XAie_RegFldAttr
  SlvPktEn : XAie_RegFldAttr
  MstrEn : XAie_RegFldAttr
  MstrPktEn : XAie_RegFldAttr
  DrpHdr : XAie_RegFldAttr
  Config : XAie_RegFldAttr
  NumSlaveSlots : Nat
  SlotOffsetPerPort : Nat
  SlotOffset : Nat
  SlotPktId : XAie_RegFldAttr
  SlotMask : XAie_RegFldAttr
  SlotEn : XAie_RegFldAttr
  SlotMsel : XAie_RegFldAttr
  SlotArbitor : XAie_RegFldAttr
  SlvConfig : List XAie_StrmPort
  MstrConfig : List XAie_StrmPort
  SlvSlotConfig : List XAie_StrmPort

/-- Tile location (row, column). -/
structure XAie_LocType where
  Row : Nat
  Col : Nat
  deriving DecidableEq, Repr

/-- Packet value {id, type}. -/
structure XAie_Packet where
  PktId : Nat
  PktType : Nat
  deriving DecidableEq, Repr

/-- Modelled from the spec: §6 — the device instance with the fields the
source dereferences, plus the two consumed collaborator interfaces
`ResolveTileType` (`_XAie_GetTileTypefromLoc`) and `ResolveTileBaseAddress`
(`_XAie_GetTileAddr`), neither of which is under `src/`, modelled as
function-valued fields.  `DevMod` collapses
`DevInst->DevProp.DevMod[TileType].StrmSw`. -/
structure XAie_DevInst where
  IsReady : Nat
  BaseAddr : Nat
  DevMod : Nat → XAie_StrmMod
  TileTypeOf : XAie_LocType → Nat
  TileAddrOf : Nat → Nat → Nat

/-- Modelled from the spec: §3 Packet constructor (`XAie_PacketInit`, not
under `src/`), building {packetId, packetType}. -/
def XAie_PacketInit (PktId PktType : Nat) : XAie_Packet := ⟨PktId, PktType⟩

/-- A committed register write: (absolute address, 32-bit value). -/
abbrev RegWrite := Nat × Nat

/-- Embedding of `_XAie_GetSlaveIdx` (xaie_ss.c:62-84).  The descriptor-array
access `StrmMod->SlvConfig[Slave]` is unguarded inside this function (the
caller checks the tag); an out-of-bounds tag yields `none`.  `RegAddr` and
`BaseAddr` are `u32` locals and `*SlaveIdx` is a `u8` store, hence the
explicit reductions; the C `u32` subtraction `RegAddr - BaseAddr` is
`(RegAddr + 2^32 - BaseAddr) % 2^32`. -/
def _XAie_GetSlaveIdx (StrmMod : XAie_StrmMod) (Slave PortNum : Nat) :
    Option (Except AieRC Nat) :=
  match StrmMod.SlvConfig[Slave]? with
  | none => none
  | some PortPtr =>
    if PortPtr.NumPorts = 0 ∨ PortPtr.NumPorts ≤ PortNum then
      some (.error .XAIE_ERR_STREAM_PORT)
    else
      let BaseAddr := u32 StrmMod.SlvConfigBaseAddr
      let RegAddr := u32 (PortPtr.PortBaseAddr + StrmMod.PortOffset * PortNum)
      some (.ok (u8 ((RegAddr + 2 ^ 32 - BaseAddr) % 2 ^ 32 / 4)))

/-- Embedding of `_XAie_StrmConfigSlv` (xaie_ss.c:105-132): on success returns
`.ok (RegVal, RegOff)`.  `*RegVal` is zero-put first, so a disabled port
yields value 0. -/
def _XAie_StrmConfigSlv (StrmMod : XAie_StrmMod)
    (PortType PortNum Enable PktEnable : Nat) :
    Option (Except AieRC (Nat × Nat)) :=
  match StrmMod.SlvConfig[PortType]? with
  | none => none
  | some PortPtr =>
    if PortPtr.NumPorts = 0 ∨ PortPtr.NumPorts ≤ PortNum then
      some (.error .XAIE_ERR_STREAM_PORT)
    else
      let RegOff := u32 (PortPtr.PortBaseAddr + StrmMod.PortOffset * PortNum)
      if Enable ≠ XAIE_ENABLE then
        some (.ok (0, RegOff))
      else
        some (.ok (XAie_SetField Enable StrmMod.SlvEn.Lsb StrmMod.SlvEn.Mask |||
          XAie_SetField PktEnable StrmMod.SlvPktEn.Lsb StrmMod.SlvPktEn.Mask,
          RegOff))

/-- The register value framed on the enable path of `_StrmConfigMstr`
(xaie_ss.c:173-185): master-enable, packet-enable, the drop-header field
re-extracted from `Config` (a `u8` local), and `Config` in the generic-config
field. -/
def mstrEnableWord (StrmMod : XAie_StrmMod) (PktEnable Config : Nat) : Nat :=
  XAie_SetField XAIE_ENABLE StrmMod.MstrEn.Lsb StrmMod.MstrEn.Mask |||
  XAie_SetField PktEnable StrmMod.MstrPktEn.Lsb StrmMod.MstrPktEn.Mask |||
  XAie_SetField (u8 (XAie_GetField Config StrmMod.DrpHdr.Lsb StrmMod.DrpHdr.Mask))
    StrmMod.DrpHdr.Lsb StrmMod.DrpHdr.Mask |||
  XAie_SetField Config StrmMod.Config.Lsb StrmMod.Config.Mask

/-- Embedding of `_StrmConfigMstr` (xaie_ss.c:153-188).  `Config` is a `u8`
parameter in C; callers pass an already-reduced value. -/
def _StrmConfigMstr (StrmMod : XAie_StrmMod)
    (PortType PortNum Enable PktEnable Config : Nat) :
    Option (Except AieRC (Nat × Nat)) :=
  match StrmMod.MstrConfig[PortType]? with
  | none => none
  | some PortPtr =>
    if PortPtr.NumPorts = 0 ∨ PortPtr.NumPorts ≤ PortNum then
      some (.error .XAIE_ERR_STREAM_PORT)
    else
      let RegOff := u32 (PortPtr.PortBaseAddr + StrmMod.PortOffset * PortNum)
      if Enable ≠ XAIE_ENABLE then
        some (.ok (0, RegOff))
      else
        some (.ok (mstrEnableWord StrmMod PktEnable Config, RegOff))

/-- Embedding of `_XAie_StreamSwitchConfigureCct` (xaie_ss.c:209-276).  A null
device is `none`; the returned list holds the committed writes in order
(master register first, then slave register). -/
def _XAie_StreamSwitchConfigureCct (DevInst : Option XAie_DevInst)
    (Loc : XAie_LocType) (Slave SlvPortNum Master MstrPortNum Enable : Nat) :
    Option (AieRC × List RegWrite) :=
  match DevInst with
  | none => some (.XAIE_INVALID_ARGS, [])
  | some Dev =>
    if Dev.IsReady ≠ XAIE_COMPONENT_IS_READY then some (.XAIE_INVALID_ARGS, [])
    else if SS_PORT_TYPE_MAX ≤ Slave ∨ SS_PORT_TYPE_MAX ≤ Master then
      some (.XAIE_ERR_STREAM_PORT, [])
    else
      let TileType := Dev.TileTypeOf Loc
      if TileType = XAIEGBL_TILE_TYPE_MAX then some (.XAIE_INVALID_TILE, [])
      else
        let StrmMod := Dev.DevMod TileType
        match _XAie_GetSlaveIdx StrmMod Slave SlvPortNum with
        | none => none
        | some (.error RC) => some (RC, [])
        | some (.ok SlaveIdx) =>
          match _StrmConfigMstr StrmMod Master MstrPortNum Enable XAIE_DISABLE
              SlaveIdx with
          | none => none
          | some (.error RC) => some (RC, [])
          | some (.ok (MstrVal, MstrOff)) =>
            match _XAie_StrmConfigSlv StrmMod Slave SlvPortNum Enable
                XAIE_DISABLE with
            | none => none
            | some (.error RC) => some (RC, [])
            | some (.ok (SlvVal, SlvOff)) =>
              let MstrAddr := u64 (Dev.BaseAddr + MstrOff +
                Dev.TileAddrOf Loc.Row Loc.Col)
              let SlvAddr := u64 (Dev.BaseAddr + SlvOff +
                Dev.TileAddrOf Loc.Row Loc.Col)
              some (.XAIE_OK, [(MstrAddr, MstrVal), (SlvAddr, SlvVal)])

/-- Embedding of `XAie_StrmConnCctEnable` (xaie_ss.c:296-303). -/
def XAie_StrmConnCctEnable (DevInst : Option XAie_DevInst) (Loc : XAie_LocType)
    (Slave SlvPortNum Master MstrPortNum : Nat) :
    Option (AieRC × List RegWrite) :=
  _XAie_StreamSwitchConfigureCct DevInst Loc Slave SlvPortNum Master MstrPortNum
    XAIE_ENABLE

/-- Embedding of `XAie_StrmConnCctDisable` (xaie_ss.c:323-330). -/
def XAie_StrmConnCctDisable (DevInst : Option XAie_DevInst) (Loc : XAie_LocType)
    (Slave SlvPortNum Master MstrPortNum : Nat) :
    Option (AieRC × List RegWrite) :=
  _XAie_StreamSwitchConfigureCct DevInst Loc Slave SlvPortNum Master MstrPortNum
    XAIE_DISABLE

/-- Embedding of `_XAie_StrmSlavePortConfig` (xaie_ss.c:350-394).  Note the
source passes `EnPkt` as the builder's `Enable` and `Enable` as the builder's
`PktEnable` (xaie_ss.c:381). -/
def _XAie_StrmSlavePortConfig (DevInst : Option XAie_DevInst)
    (Loc : XAie_LocType) (Slave SlvPortNum EnPkt Enable : Nat) :
    Option (AieRC × List RegWrite) :=
  match DevInst with
  | none => some (.XAIE_INVALID_ARGS, [])
  | some Dev =>
    if Dev.IsReady ≠ XAIE_COMPONENT_IS_READY then some (.XAIE_INVALID_ARGS, [])
    else if SS_PORT_TYPE_MAX ≤ Slave then some (.XAIE_ERR_STREAM_PORT, [])
    else
      let TileType := Dev.TileTypeOf Loc
      if TileType = XAIEGBL_TILE_TYPE_MAX then some (.XAIE_INVALID_TILE, [])
      else
        let StrmMod := Dev.DevMod TileType
        match _XAie_StrmConfigSlv StrmMod Slave SlvPortNum EnPkt Enable with
        | none => none
        | some (.error RC) => some (RC, [])
        | some (.ok (RegVal, RegOff)) =>
          some (.XAIE_OK, [(u64 (Dev.BaseAddr +
            Dev.TileAddrOf Loc.Row Loc.Col + RegOff), RegVal)])

/-- Embedding of `XAie_StrmPktSwSlavePortEnable` (xaie_ss.c:412-417). -/
def XAie_StrmPktSwSlavePortEnable (DevInst : Option XAie_DevInst)
    (Loc : XAie_LocType) (Slave SlvPortNum : Nat) :
    Option (AieRC × List RegWrite) :=
  _XAie_StrmSlavePortConfig DevInst Loc Slave SlvPortNum XAIE_ENABLE XAIE_ENABLE

/-- Embedding of `XAie_StrmPktSwSlavePortDisable` (xaie_ss.c:435-440). -/
def XAie_StrmPktSwSlavePortDisable (DevInst : Option XAie_DevInst)
    (Loc : XAie_LocType) (Slave SlvPortNum : Nat) :
    Option (AieRC × List RegWrite) :=
  _XAie_StrmSlavePortConfig DevInst Loc Slave SlvPortNum XAIE_DISABLE
    XAIE_DISABLE

/-- The `u32` config word assembled by `_XAie_StrmPktSwMstrPortConfig` when
enabling (xaie_ss.c:505-512): drop-header in its descriptor field,
arbitration in the 3-bit field at offset 0, select-enable in the 4-bit field
at offset 3. -/
def pktSwMstrConfigWord (StrmMod : XAie_StrmMod)
    (DropHeader Arbitor MSelEn : Nat) : Nat :=
  u32 (XAie_SetField DropHeader StrmMod.DrpHdr.Lsb StrmMod.DrpHdr.Mask |||
    XAie_SetField Arbitor XAIE_SS_MASTER_PORT_ARBITOR_LSB
      XAIE_SS_MASTER_PORT_ARBITOR_MASK |||
    XAie_SetField MSelEn XAIE_SS_MASTER_PORT_MSELEN_LSB
      XAIE_SS_MASTER_PORT_MSELEN_MASK)

/-- Embedding of `_XAie_StrmPktSwMstrPortConfig` (xaie_ss.c:466-528).
`Config` is a `u32` local; passing it to the `u8` parameter of
`_StrmConfigMstr` truncates it to its low 8 bits (`u8`). -/
def _XAie_StrmPktSwMstrPortConfig (DevInst : Option XAie_DevInst)
    (Loc : XAie_LocType) (Master MstrPortNum DropHeader Arbitor MSelEn
    PktEn Enable : Nat) : Option (AieRC × List RegWrite) :=
  match DevInst with
  | none => some (.XAIE_INVALID_ARGS, [])
  | some Dev =>
    if Dev.IsReady ≠ XAIE_COMPONENT_IS_READY then some (.XAIE_INVALID_ARGS, [])
    else if XAIE_SS_ARBITOR_MAX < Arbitor ∨ XAIE_SS_MSELEN_MAX < MSelEn then
      some (.XAIE_INVALID_ARGS, [])
    else if SS_PORT_TYPE_MAX ≤ Master then some (.XAIE_ERR_STREAM_PORT, [])
    else
      let TileType := Dev.TileTypeOf Loc
      if TileType = XAIEGBL_TILE_TYPE_MAX then some (.XAIE_INVALID_TILE, [])
      else
        let StrmMod := Dev.DevMod TileType
        let Config : Nat :=
          if Enable = XAIE_ENABLE then
            pktSwMstrConfigWord StrmMod DropHeader Arbitor MSelEn
          else 0
        match _StrmConfigMstr StrmMod Master MstrPortNum Enable PktEn
            (u8 Config) with
        | none => none
        | some (.error RC) => some (RC, [])
        | some (.ok (RegVal, RegOff)) =>
          some (.XAIE_OK, [(u64 (Dev.BaseAddr +
            Dev.TileAddrOf Loc.Row Loc.Col + RegOff), RegVal)])

/-- Embedding of `XAie_StrmPktSwMstrPortEnable` (xaie_ss.c:550-556). -/
def XAie_StrmPktSwMstrPortEnable (DevInst : Option XAie_DevInst)
    (Loc : XAie_LocType) (Master MstrPortNum DropHeader Arbitor MSelEn : Nat) :
    Option (AieRC × List RegWrite) :=
  _XAie_StrmPktSwMstrPortConfig DevInst Loc Master MstrPortNum DropHeader
    Arbitor MSelEn XAIE_ENABLE XAIE_ENABLE

/-- Embedding of `XAie_StrmPktSwMstrPortDisable` (xaie_ss.c:575-581). -/
def XAie_StrmPktSwMstrPortDisable (DevInst : Option XAie_DevInst)
    (Loc : XAie_LocType) (Master MstrPortNum : Nat) :
    Option (AieRC × List RegWrite) :=
  _XAie_StrmPktSwMstrPortConfig DevInst Loc Master MstrPortNum
    XAIE_SS_PKT_DONOT_DROP_HEADER 0 0 XAIE_DISABLE XAIE_DISABLE

/-- Embedding of `_XAie_StrmSlaveSlotConfig` (xaie_ss.c:607-665).  The C
bounds test `Mask & ~XAIE_SS_MASK` is an `int` bitwise-and against the 32-bit
complement of `XAIE_SS_MASK`.  The combined port/slot condition
(xaie_ss.c:637-638) short-circuits, so `SlvConfig[Slave]` is only read after
`Slave < SS_PORT_TYPE_MAX` holds. -/
def _XAie_StrmSlaveSlotConfig (DevInst : Option XAie_DevInst)
    (Loc : XAie_LocType) (Slave SlvPortNum SlotNum : Nat) (Pkt : XAie_Packet)
    (Mask MSel Arbitor Enable : Nat) : Option (AieRC × List RegWrite) :=
  match DevInst with
  | none => some (.XAIE_INVALID_ARGS, [])
  | some Dev =>
    if Dev.IsReady ≠ XAIE_COMPONENT_IS_READY then some (.XAIE_INVALID_ARGS, [])
    else if XAIE_SS_ARBITOR_MAX < Arbitor ∨ XAIE_SS_MSEL_MAX < MSel ∨
        Mask &&& (2 ^ 32 - 1 - XAIE_SS_MASK) ≠ 0 ∨
        XAIE_PACKETID_MAX < Pkt.PktId then
      some (.XAIE_INVALID_ARGS, [])
    else
      let TileType := Dev.TileTypeOf Loc
      if TileType = XAIEGBL_TILE_TYPE_MAX then some (.XAIE_INVALID_TILE, [])
      else
        let StrmMod := Dev.DevMod TileType
        if SS_PORT_TYPE_MAX ≤ Slave then some (.XAIE_ERR_STREAM_PORT, [])
        else if StrmMod.NumSlaveSlots ≤ SlotNum then
          some (.XAIE_ERR_STREAM_PORT, [])
        else
          match StrmMod.SlvConfig[Slave]? with
          | none => none
          | some SlvPort =>
            if SlvPort.NumPorts ≤ SlvPortNum then
              some (.XAIE_ERR_STREAM_PORT, [])
            else
              match StrmMod.SlvSlotConfig[Slave]? with
              | none => none
              | some SlotPort =>
                let RegAddr := u64 (Dev.BaseAddr +
                  Dev.TileAddrOf Loc.Row Loc.Col + SlotPort.PortBaseAddr +
                  SlvPortNum * StrmMod.SlotOffsetPerPort +
                  SlotNum * StrmMod.SlotOffset)
                let RegVal : Nat :=
                  if Enable = XAIE_ENABLE then
                    XAie_SetField Pkt.PktId StrmMod.SlotPktId.Lsb
                      StrmMod.SlotPktId.Mask |||
                    XAie_SetField Mask StrmMod.SlotMask.Lsb
                      StrmMod.SlotMask.Mask |||
                    XAie_SetField XAIE_ENABLE StrmMod.SlotEn.Lsb
                      StrmMod.SlotEn.Mask |||
                    XAie_SetField MSel StrmMod.SlotMsel.Lsb
                      StrmMod.SlotMsel.Mask |||
                    XAie_SetField Arbitor StrmMod.SlotArbitor.Lsb
                      StrmMod.SlotArbitor.Mask
                  else 0
                some (.XAIE_OK, [(RegAddr, RegVal)])

/-- Embedding of `XAie_StrmPktSwSlaveSlotEnable` (xaie_ss.c:689-695). -/
def XAie_StrmPktSwSlaveSlotEnable (DevInst : Option XAie_DevInst)
    (Loc : XAie_LocType) (Slave SlvPortNum SlotNum : Nat) (Pkt : XAie_Packet)
    (Mask MSel Arbitor : Nat) : Option (AieRC × List RegWrite) :=
  _XAie_StrmSlaveSlotConfig DevInst Loc Slave SlvPortNum SlotNum Pkt Mask MSel
    Arbitor XAIE_ENABLE

/-- Embedding of `XAie_StrmPktSwSlaveSlotDisable` (xaie_ss.c:714-720). -/
def XAie_StrmPktSwSlaveSlotDisable (DevInst : Option XAie_DevInst)
    (Loc : XAie_LocType) (Slave SlvPortNum SlotNum : Nat) :
    Option (AieRC × List RegWrite) :=
  _XAie_StrmSlaveSlotConfig DevInst Loc Slave SlvPortNum SlotNum
    (XAie_PacketInit 0 0) 0 0 0 XAIE_DISABLE

/-! ## Concrete fixtures

Representative descriptor tables and device instances, used to witness the
theorems on concrete data and to exhibit counterexamples. -/

/-- A representative stream-switch module descriptor: nine port-type entries
per table (the last tagged unsupported with port count 0), slave registers
starting at `0x100` with stride 4, slot block at `0x800` with per-port stride
`0x40` and per-slot stride 4. -/
def testStrmMod : XAie_StrmMod where
  SlvConfigBaseAddr := 0x100
  PortOffset := 4
  SlvEn := ⟨0, 0x1⟩
  SlvPktEn := ⟨1, 0x2⟩
  MstrEn := ⟨31, 0x80000000⟩
  MstrPktEn := ⟨30, 0x40000000⟩
  DrpHdr := ⟨6, 0x40⟩
  Config := ⟨0, 0x7F⟩
  NumSlaveSlots := 4
  SlotOffsetPerPort := 0x40
  SlotOffset := 4
  SlotPktId := ⟨0, 0x1F⟩
  SlotMask := ⟨8, 0x1F00⟩
  SlotEn := ⟨31, 0x80000000⟩
  SlotMsel := ⟨24, 0x3000000⟩
  SlotArbitor := ⟨16, 0x70000⟩
  SlvConfig := [⟨0x100, 8⟩, ⟨0x120, 4⟩, ⟨0x130, 1⟩, ⟨0x134, 2⟩, ⟨0x13C, 4⟩,
    ⟨0x14C, 4⟩, ⟨0x15C, 4⟩, ⟨0x16C, 4⟩, ⟨0, 0⟩]
  MstrConfig := [⟨0x0, 8⟩, ⟨0x20, 4⟩, ⟨0x30, 1⟩, ⟨0x34, 2⟩, ⟨0x3C, 4⟩,
    ⟨0x4C, 4⟩, ⟨0x5C, 4⟩, ⟨0x6C, 4⟩, ⟨0, 0⟩]
  SlvSlotConfig := [⟨0x800, 8⟩, ⟨0xA00, 4⟩, ⟨0xB00, 1⟩, ⟨0xB04, 2⟩,
    ⟨0xB0C, 4⟩, ⟨0xC0C, 4⟩, ⟨0xD0C, 4⟩, ⟨0xE0C, 4⟩, ⟨0, 0⟩]

/-- A ready device instance over `testStrmMod` whose every location resolves
to tile type 0 at tile base address 0. -/
def testDev : XAie_DevInst where
  IsReady := XAIE_COMPONENT_IS_READY
  BaseAddr := 0
  DevMod := fun _ => testStrmMod
  TileTypeOf := fun _ => 0
  TileAddrOf := fun _ _ => 0

/-- A ready device instance whose every location is unresolvable (tile
resolution always returns the sentinel). -/
def noTileDev : XAie_DevInst where
  IsReady := XAIE_COMPONENT_IS_READY
  BaseAddr := 0
  DevMod := fun _ => testStrmMod
  TileTypeOf := fun _ => XAIEGBL_TILE_TYPE_MAX
  TileAddrOf := fun _ _ => 0

/-- A descriptor whose slave type 0 sits `0x400` bytes past the slave base
address, so the untruncated slave index of its port 0 is 256, outside `u8`
range. -/
def truncStrmMod : XAie_StrmMod :=
  { testStrmMod with SlvConfigBaseAddr := 0, SlvConfig := [⟨0x400, 1⟩] }

/-- A variant of `testStrmMod` whose drop-header field lies above the low
byte of the register word. -/
def highDrpHdrStrmMod : XAie_StrmMod := { testStrmMod with DrpHdr := ⟨8, 0x100⟩ }

/-- A ready device over `highDrpHdrStrmMod`. -/
def highDrpHdrDev : XAie_DevInst := { testDev with DevMod := fun _ => highDrpHdrStrmMod }

/-- A fixed tile location used by the concrete theorems. -/
def loc0 : XAie_LocType := ⟨1, 1⟩

/-! ## Helper lemmas -/

instance {ε α : Type} [DecidableEq ε] [DecidableEq α] :
    DecidableEq (Except ε α) := fun x y =>
  match x, y with
  | .ok a, .ok b =>
    if h : a = b then .isTrue (by rw [h]) else .isFalse (by simp [h])
  | .error a, .error b =>
    if h : a = b then .isTrue (by rw [h]) else .isFalse (by simp [h])
  | .ok _, .error _ => .isFalse (by simp)
  | .error _, .ok _ => .isFalse (by simp)

theorem u8_eq_of_lt {n : Nat} (h : n < 2 ^ 8) : u8 n = n := Nat.mod_eq_of_lt h

theorem u32_eq_of_lt {n : Nat} (h : n < 2 ^ 32) : u32 n = n := Nat.mod_eq_of_lt h

theorem u64_eq_of_lt {n : Nat} (h : n < 2 ^ 64) : u64 n = n := Nat.mod_eq_of_lt h

theorem XAie_GetField_le (Val Lsb Mask : Nat) : XAie_GetField Val Lsb Mask ≤ Val := by
  unfold XAie_GetField
  rw [Nat.shiftRight_eq_div_pow]
  exact le_trans (Nat.div_le_self _ _) Nat.and_le_left

theorem low5_and_comp_eq_zero : ∀ m, m < 32 → m &&& (2 ^ 32 - 1 - XAIE_SS_MASK) = 0 := by
  decide

set_option maxRecDepth 4096 in
theorem not_low5_and_comp_ne_zero :
    ∀ m, m < 256 → 31 < m → m &&& (2 ^ 32 - 1 - XAIE_SS_MASK) ≠ 0 := by
  decide

/-! ## Claim C2: slave index resolution -/

/-- C2 counterexample: the claim states the resolved index is
`(baseAddr + portStride * portNumber - slaveBaseAddr) / 4` for every
descriptor, but the source stores the index through a `u8` pointer
(xaie_ss.c:81), truncating it to its low 8 bits.  On `truncStrmMod`, slave
type 0 port 0, the claimed formula gives 256 while the code returns 0. -/
theorem slaveIdx_truncation_cex :
    _XAie_GetSlaveIdx truncStrmMod 0 0 = some (.ok 0) ∧
    (0x400 + truncStrmMod.PortOffset * 0 - truncStrmMod.SlvConfigBaseAddr) / 4 = 256 ∧
    (0 : Nat) ≠ 256 := by
  refine ⟨by decide, by decide, by decide⟩

/-- C2 (amended): for a supported slave type and in-range port number,
`_XAie_GetSlaveIdx` returns the 32-bit difference between the port's register
address and the slave base address, divided by 4 and truncated to 8 bits;
this equals the claimed formula `(baseAddr + portStride * portNumber -
slaveBaseAddr) / 4` whenever the address computation does not wrap and the
quotient fits in a byte (in particular `slaveBaseAddr = 0x100`,
`baseAddr = 0x120`, `portStride = 4`, port 2 gives 10); it fails with the
stream-port error when `portCount = 0` or `portNumber ≥ portCount`. -/
theorem slaveIdx_formula_amended :
    (∀ (sm : XAie_StrmMod) (Slave PortNum : Nat) (p : XAie_StrmPort),
      sm.SlvConfig[Slave]? = some p → p.NumPorts ≠ 0 → PortNum < p.NumPorts →
      _XAie_GetSlaveIdx sm Slave PortNum =
        some (.ok (u8 ((u32 (p.PortBaseAddr + sm.PortOffset * PortNum) +
          2 ^ 32 - u32 sm.SlvConfigBaseAddr) % 2 ^ 32 / 4)))) ∧
    (∀ (sm : XAie_StrmMod) (Slave PortNum : Nat) (p : XAie_StrmPort),
      sm.SlvConfig[Slave]? = some p → p.NumPorts ≠ 0 → PortNum < p.NumPorts →
      sm.SlvConfigBaseAddr ≤ p.PortBaseAddr + sm.PortOffset * PortNum →
      p.PortBaseAddr + sm.PortOffset * PortNum < 2 ^ 32 →
      (p.PortBaseAddr + sm.PortOffset * PortNum - sm.SlvConfigBaseAddr) / 4 < 2 ^ 8 →
      _XAie_GetSlaveIdx sm Slave PortNum =
        some (.ok ((p.PortBaseAddr + sm.PortOffset * PortNum -
          sm.SlvConfigBaseAddr) / 4))) ∧
    (∀ (sm : XAie_StrmMod) (Slave PortNum : Nat) (p : XAie_StrmPort),
      sm.SlvConfig[Slave]? = some p →
      p.NumPorts = 0 ∨ p.NumPorts ≤ PortNum →
      _XAie_GetSlaveIdx sm Slave PortNum = some (.error .XAIE_ERR_STREAM_PORT)) := by
  refine ⟨?_, ?_, ?_⟩
  · intro sm Slave PortNum p hp hn hlt
    unfold _XAie_GetSlaveIdx
    rw [hp]
    dsimp only
    rw [if_neg (by omega)]
  · intro sm Slave PortNum p hp hn hlt hbase hfit hquot
    unfold _XAie_GetSlaveIdx
    rw [hp]
    dsimp only
    rw [if_neg (by omega)]
    have h1 : u32 (p.PortBaseAddr + sm.PortOffset * PortNum) =
        p.PortBaseAddr + sm.PortOffset * PortNum := u32_eq_of_lt hfit
    have h2 : u32 sm.SlvConfigBaseAddr = sm.SlvConfigBaseAddr :=
      u32_eq_of_lt (lt_of_le_of_lt hbase hfit)
    rw [h1, h2, show p.PortBaseAddr + sm.PortOffset * PortNum + 2 ^ 32 -
        sm.SlvConfigBaseAddr =
        (p.PortBaseAddr + sm.PortOffset * PortNum - sm.SlvConfigBaseAddr) +
        2 ^ 32 from by omega,
      Nat.add_mod_right, Nat.mod_eq_of_lt (by omega), u8_eq_of_lt hquot]
  · intro sm Slave PortNum p hp hcond
    unfold _XAie_GetSlaveIdx
    rw [hp]
    dsimp only
    rw [if_pos hcond]

/-- C2 witness: on `testStrmMod` (slave base `0x100`, stride 4), slave type 1
(base `0x120`) port 2 resolves to index 10, and the unsupported type 8 (port
count 0) fails with the stream-port error. -/
theorem slaveIdx_formula_amended_witness :
    _XAie_GetSlaveIdx testStrmMod 1 2 = some (.ok 10) ∧
    _XAie_GetSlaveIdx testStrmMod 8 0 = some (.error .XAIE_ERR_STREAM_PORT) := by
  constructor
  · have h := slaveIdx_formula_amended.2.1 testStrmMod 1 2 ⟨0x120, 4⟩
      (by decide) (by decide) (by decide) (by decide) (by decide) (by decide)
    simpa [testStrmMod] using h
  · exact slaveIdx_formula_amended.2.2 testStrmMod 8 0 ⟨0, 0⟩ (by decide)
      (Or.inl rfl)

/-! ## Claim C3: master register word for an enabling build -/

/-- C3: for a supported master type and in-range port number, building with
enable yields exactly the disjunction of master-enable, packet-mode-enable,
the drop-header field re-extracted from the config word, and the raw config
word packed into the generic-config field; every set bit of the result lies
inside one of those four field masks. -/
theorem mstrConfig_enable_word (sm : XAie_StrmMod)
    (PortType PortNum PktEnable Config : Nat) (p : XAie_StrmPort)
    (hp : sm.MstrConfig[PortType]? = some p) (hn : p.NumPorts ≠ 0)
    (hlt : PortNum < p.NumPorts) (hc : Config < 2 ^ 8) :
    _StrmConfigMstr sm PortType PortNum XAIE_ENABLE PktEnable Config =
      some (.ok (XAie_SetField XAIE_ENABLE sm.MstrEn.Lsb sm.MstrEn.Mask |||
        XAie_SetField PktEnable sm.MstrPktEn.Lsb sm.MstrPktEn.Mask |||
        XAie_SetField (XAie_GetField Config sm.DrpHdr.Lsb sm.DrpHdr.Mask)
          sm.DrpHdr.Lsb sm.DrpHdr.Mask |||
        XAie_SetField Config sm.Config.Lsb sm.Config.Mask,
        u32 (p.PortBaseAddr + sm.PortOffset * PortNum))) ∧
    ∀ i, (XAie_SetField XAIE_ENABLE sm.MstrEn.Lsb sm.MstrEn.Mask |||
        XAie_SetField PktEnable sm.MstrPktEn.Lsb sm.MstrPktEn.Mask |||
        XAie_SetField (XAie_GetField Config sm.DrpHdr.Lsb sm.DrpHdr.Mask)
          sm.DrpHdr.Lsb sm.DrpHdr.Mask |||
        XAie_SetField Config sm.Config.Lsb sm.Config.Mask).testBit i = true →
      (sm.MstrEn.Mask ||| sm.MstrPktEn.Mask ||| sm.DrpHdr.Mask |||
        sm.Config.Mask).testBit i = true := by
  constructor
  · unfold _StrmConfigMstr
    rw [hp]
    dsimp only
    rw [if_neg (by omega), if_neg (by simp)]
    have hdrop : u8 (XAie_GetField Config sm.DrpHdr.Lsb sm.DrpHdr.Mask) =
        XAie_GetField Config sm.DrpHdr.Lsb sm.DrpHdr.Mask :=
      u8_eq_of_lt (lt_of_le_of_lt (XAie_GetField_le _ _ _) hc)
    simp only [mstrEnableWord]
    rw [hdrop]
  · intro i h
    simp only [XAie_SetField, Nat.testBit_or, Nat.testBit_and,
      Bool.or_eq_true, Bool.and_eq_true] at h ⊢
    rcases h with ((h | h) | h) | h
    · exact Or.inl (Or.inl (Or.inl h.2))
    · exact Or.inl (Or.inl (Or.inr h.2))
    · exact Or.inl (Or.inr h.2)
    · exact Or.inr h.2

/-- C3 witness: on `testStrmMod`, master type 0 port 1 with packet mode off
and config word 10 builds register value `0x8000000A` at offset 4. -/
theorem mstrConfig_enable_word_witness :
    (10 : Nat) < 2 ^ 8 ∧
    _StrmConfigMstr testStrmMod 0 1 XAIE_ENABLE 0 10 =
      some (.ok (XAie_SetField XAIE_ENABLE testStrmMod.MstrEn.Lsb
          testStrmMod.MstrEn.Mask |||
        XAie_SetField 0 testStrmMod.MstrPktEn.Lsb testStrmMod.MstrPktEn.Mask |||
        XAie_SetField (XAie_GetField 10 testStrmMod.DrpHdr.Lsb
          testStrmMod.DrpHdr.Mask) testStrmMod.DrpHdr.Lsb
          testStrmMod.DrpHdr.Mask |||
        XAie_SetField 10 testStrmMod.Config.Lsb testStrmMod.Config.Mask,
        u32 ((⟨0x0, 8⟩ : XAie_StrmPort).PortBaseAddr +
          testStrmMod.PortOffset * 1))) :=
  ⟨by decide, (mstrConfig_enable_word testStrmMod 0 1 0 10 ⟨0x0, 8⟩ (by decide)
    (by decide) (by decide) (by decide)).1⟩

/-! ## Claim C4: disable always yields the all-zero word -/

/-- C4: every register-build operation called with enable = 0 produces the
all-zero register word regardless of all other arguments: the slave-port
builder, the master-port builder, and (through its committed write) the
slave-slot configurator. -/
theorem disable_yields_zero :
    (∀ (sm : XAie_StrmMod) (PortType PortNum PktEnable Val Off : Nat),
      _XAie_StrmConfigSlv sm PortType PortNum XAIE_DISABLE PktEnable =
        some (.ok (Val, Off)) → Val = 0) ∧
    (∀ (sm : XAie_StrmMod) (PortType PortNum PktEnable Config Val Off : Nat),
      _StrmConfigMstr sm PortType PortNum XAIE_DISABLE PktEnable Config =
        some (.ok (Val, Off)) → Val = 0) ∧
    (∀ (DevInst : Option XAie_DevInst) (Loc : XAie_LocType)
      (Slave SlvPortNum SlotNum : Nat) (Pkt : XAie_Packet)
      (Mask MSel Arbitor : Nat) (RC : AieRC) (Writes : List RegWrite),
      _XAie_StrmSlaveSlotConfig DevInst Loc Slave SlvPortNum SlotNum Pkt Mask
        MSel Arbitor XAIE_DISABLE = some (RC, Writes) →
      ∀ Addr Val, (Addr, Val) ∈ Writes → Val = 0) := by
  refine ⟨?_, ?_, ?_⟩
  · intro sm PortType PortNum PktEnable Val Off h
    unfold _XAie_StrmConfigSlv at h
    dsimp only at h
    split at h
    · exact absurd h (by simp)
    · split at h
      · simp at h
      · rw [if_pos (by decide)] at h
        simp only [Option.some.injEq, Except.ok.injEq, Prod.mk.injEq] at h
        omega
  · intro sm PortType PortNum PktEnable Config Val Off h
    unfold _StrmConfigMstr at h
    dsimp only at h
    split at h
    · exact absurd h (by simp)
    · split at h
      · simp at h
      · rw [if_pos (by decide)] at h
        simp only [Option.some.injEq, Except.ok.injEq, Prod.mk.injEq] at h
        omega
  · intro DevInst Loc Slave SlvPortNum SlotNum Pkt Mask MSel Arbitor RC Writes h
    intro Addr Val hmem
    unfold _XAie_StrmSlaveSlotConfig at h
    cases DevInst with
    | none =>
      simp only [Option.some.injEq, Prod.mk.injEq] at h
      obtain ⟨rfl, rfl⟩ := h
      simp at hmem
    | some Dev =>
      dsimp only at h
      split at h
      · simp only [Option.some.injEq, Prod.mk.injEq] at h
        obtain ⟨rfl, rfl⟩ := h
        simp at hmem
      · split at h
        · simp only [Option.some.injEq, Prod.mk.injEq] at h
          obtain ⟨rfl, rfl⟩ := h
          simp at hmem
        · split at h
          · simp only [Option.some.injEq, Prod.mk.injEq] at h
            obtain ⟨rfl, rfl⟩ := h
            simp at hmem
          · split at h
            · simp only [Option.some.injEq, Prod.mk.injEq] at h
              obtain ⟨rfl, rfl⟩ := h
              simp at hmem
            · split at h
              · simp only [Option.some.injEq, Prod.mk.injEq] at h
                obtain ⟨rfl, rfl⟩ := h
                simp at hmem
              · split at h
                · exact absurd h (by simp)
                · split at h
                  · simp only [Option.some.injEq, Prod.mk.injEq] at h
                    obtain ⟨rfl, rfl⟩ := h
                    simp at hmem
                  · split at h
                    · exact absurd h (by simp)
                    · rw [if_neg (by decide)] at h
                      simp only [Option.some.injEq, Prod.mk.injEq] at h
                      obtain ⟨rfl, rfl⟩ := h
                      simp only [List.mem_singleton, Prod.mk.injEq] at hmem
                      exact hmem.2

/-- C4 witness: the three disable paths evaluated on `testStrmMod`: the slave
builder, the master builder, and the slot configurator each yield value 0. -/
theorem disable_yields_zero_witness :
    _XAie_StrmConfigSlv testStrmMod 0 0 XAIE_DISABLE 1 = some (.ok (0, 0x100)) ∧
    (0 : Nat) = 0 := by
  refine ⟨by decide, disable_yields_zero.1 testStrmMod 0 0 1 0 0x100 (by decide)⟩

/-! ## Claim C5: out-of-range field values are rejected before any write -/

/-- C5: the packet-switch master configurator rejects arbitration above 7 or
select-enable above 15, and the slave-slot configurator rejects arbitration
above 7, select above 3, a mask with a bit outside the low 5 bits, or a
packet id above 31 — in each case returning the invalid-arguments code with
an empty write list. -/
theorem bounds_rejected_invalid_args :
    (∀ (DevInst : Option XAie_DevInst) (Loc : XAie_LocType)
      (Master MstrPortNum DropHeader Arbitor MSelEn PktEn Enable : Nat),
      XAIE_SS_ARBITOR_MAX < Arbitor ∨ XAIE_SS_MSELEN_MAX < MSelEn →
      _XAie_StrmPktSwMstrPortConfig DevInst Loc Master MstrPortNum DropHeader
        Arbitor MSelEn PktEn Enable = some (.XAIE_INVALID_ARGS, [])) ∧
    (∀ (DevInst : Option XAie_DevInst) (Loc : XAie_LocType)
      (Slave SlvPortNum SlotNum : Nat) (Pkt : XAie_Packet)
      (Mask MSel Arbitor Enable : Nat),
      XAIE_SS_ARBITOR_MAX < Arbitor ∨ XAIE_SS_MSEL_MAX < MSel ∨
        (Mask < 2 ^ 8 ∧ XAIE_SS_MASK < Mask) ∨ XAIE_PACKETID_MAX < Pkt.PktId →
      _XAie_StrmSlaveSlotConfig DevInst Loc Slave SlvPortNum SlotNum Pkt Mask
        MSel Arbitor Enable = some (.XAIE_INVALID_ARGS, [])) := by
  constructor
  · intro DevInst Loc Master MstrPortNum DropHeader Arbitor MSelEn PktEn Enable h
    cases DevInst with
    | none => rfl
    | some Dev =>
      unfold _XAie_StrmPktSwMstrPortConfig
      dsimp only
      split
      · rfl
      · rfl
  · intro DevInst Loc Slave SlvPortNum SlotNum Pkt Mask MSel Arbitor Enable h
    cases DevInst with
    | none => rfl
    | some Dev =>
      unfold _XAie_StrmSlaveSlotConfig
      dsimp only
      split
      · rfl
      · refine if_pos ?_
        rcases h with h | h | ⟨h1, h2⟩ | h
        · exact Or.inl h
        · exact Or.inr (Or.inl h)
        · exact Or.inr (Or.inr (Or.inl (not_low5_and_comp_ne_zero Mask h1 h2)))
        · exact Or.inr (Or.inr (Or.inr h))

/-- C5 witness: on a ready device, arbitration 8 and select-enable 16 are
rejected by the master-port configurator, and select 4, mask `0x20` and
packet id 32 by the slot configurator, each with the invalid-arguments code
and zero writes. -/
theorem bounds_rejected_invalid_args_witness :
    _XAie_StrmPktSwMstrPortConfig (some testDev) loc0 0 0 0 8 0 1 1 =
      some (.XAIE_INVALID_ARGS, []) ∧
    _XAie_StrmPktSwMstrPortConfig (some testDev) loc0 0 0 0 0 16 1 1 =
      some (.XAIE_INVALID_ARGS, []) ∧
    _XAie_StrmSlaveSlotConfig (some testDev) loc0 0 0 0 ⟨0, 0⟩ 0 4 0 1 =
      some (.XAIE_INVALID_ARGS, []) ∧
    _XAie_StrmSlaveSlotConfig (some testDev) loc0 0 0 0 ⟨0, 0⟩ 0x20 0 0 1 =
      some (.XAIE_INVALID_ARGS, []) ∧
    _XAie_StrmSlaveSlotConfig (some testDev) loc0 0 0 0 ⟨32, 0⟩ 0 0 0 1 =
      some (.XAIE_INVALID_ARGS, []) :=
  ⟨bounds_rejected_invalid_args.1 (some testDev) loc0 0 0 0 8 0 1 1
      (Or.inl (by decide)),
    bounds_rejected_invalid_args.1 (some testDev) loc0 0 0 0 0 16 1 1
      (Or.inr (by decide)),
    bounds_rejected_invalid_args.2 (some testDev) loc0 0 0 0 ⟨0, 0⟩ 0 4 0 1
      (Or.inr (Or.inl (by decide))),
    bounds_rejected_invalid_args.2 (some testDev) loc0 0 0 0 ⟨0, 0⟩ 0x20 0 0 1
      (Or.inr (Or.inr (Or.inl (by decide)))),
    bounds_rejected_invalid_args.2 (some testDev) loc0 0 0 0 ⟨32, 0⟩ 0 0 0 1
      (Or.inr (Or.inr (Or.inr (by decide))))⟩

/-! ## Claim C6: slave-slot address and value -/

/-- C6: for every valid slot request the configurator commits exactly one
write, at the tile base plus
`slotBaseAddr(slaveType) + portNumber * slotOffsetPerPort + slotNumber *
slotOffset`; enabling packs packet-id, mask, slot-enable = 1, select and
arbitration, disabling writes the all-zero word to the same address. -/
theorem slot_config_addr_value (Dev : XAie_DevInst) (Loc : XAie_LocType)
    (Slave SlvPortNum SlotNum : Nat) (Pkt : XAie_Packet)
    (Mask MSel Arbitor Enable : Nat) (p q : XAie_StrmPort)
    (hready : Dev.IsReady = XAIE_COMPONENT_IS_READY)
    (harb : Arbitor ≤ XAIE_SS_ARBITOR_MAX) (hmsel : MSel ≤ XAIE_SS_MSEL_MAX)
    (hmask : Mask ≤ XAIE_SS_MASK) (hpkt : Pkt.PktId ≤ XAIE_PACKETID_MAX)
    (htile : Dev.TileTypeOf Loc ≠ XAIEGBL_TILE_TYPE_MAX)
    (hs : Slave < SS_PORT_TYPE_MAX)
    (hslot : SlotNum < (Dev.DevMod (Dev.TileTypeOf Loc)).NumSlaveSlots)
    (hp : (Dev.DevMod (Dev.TileTypeOf Loc)).SlvConfig[Slave]? = some p)
    (hpn : SlvPortNum < p.NumPorts)
    (hq : (Dev.DevMod (Dev.TileTypeOf Loc)).SlvSlotConfig[Slave]? = some q)
    (hfit : Dev.BaseAddr + Dev.TileAddrOf Loc.Row Loc.Col + q.PortBaseAddr +
      SlvPortNum * (Dev.DevMod (Dev.TileTypeOf Loc)).SlotOffsetPerPort +
      SlotNum * (Dev.DevMod (Dev.TileTypeOf Loc)).SlotOffset < 2 ^ 64) :
    _XAie_StrmSlaveSlotConfig (some Dev) Loc Slave SlvPortNum SlotNum Pkt Mask
      MSel Arbitor Enable =
      some (.XAIE_OK, [(Dev.BaseAddr + Dev.TileAddrOf Loc.Row Loc.Col +
        q.PortBaseAddr +
        SlvPortNum * (Dev.DevMod (Dev.TileTypeOf Loc)).SlotOffsetPerPort +
        SlotNum * (Dev.DevMod (Dev.TileTypeOf Loc)).SlotOffset,
        if Enable = XAIE_ENABLE then
          XAie_SetField Pkt.PktId (Dev.DevMod (Dev.TileTypeOf Loc)).SlotPktId.Lsb
            (Dev.DevMod (Dev.TileTypeOf Loc)).SlotPktId.Mask |||
          XAie_SetField Mask (Dev.DevMod (Dev.TileTypeOf Loc)).SlotMask.Lsb
            (Dev.DevMod (Dev.TileTypeOf Loc)).SlotMask.Mask |||
          XAie_SetField XAIE_ENABLE (Dev.DevMod (Dev.TileTypeOf Loc)).SlotEn.Lsb
            (Dev.DevMod (Dev.TileTypeOf Loc)).SlotEn.Mask |||
          XAie_SetField MSel (Dev.DevMod (Dev.TileTypeOf Loc)).SlotMsel.Lsb
            (Dev.DevMod (Dev.TileTypeOf Loc)).SlotMsel.Mask |||
          XAie_SetField Arbitor (Dev.DevMod (Dev.TileTypeOf Loc)).SlotArbitor.Lsb
            (Dev.DevMod (Dev.TileTypeOf Loc)).SlotArbitor.Mask
        else 0)]) := by
  have hmz : Mask &&& (2 ^ 32 - 1 - XAIE_SS_MASK) = 0 :=
    low5_and_comp_eq_zero Mask (by simp only [XAIE_SS_MASK] at hmask; omega)
  have hargs : ¬(XAIE_SS_ARBITOR_MAX < Arbitor ∨ XAIE_SS_MSEL_MAX < MSel ∨
      Mask &&& (2 ^ 32 - 1 - XAIE_SS_MASK) ≠ 0 ∨
      XAIE_PACKETID_MAX < Pkt.PktId) := by
    simp only [not_or, not_lt, not_ne_iff]
    exact ⟨harb, hmsel, hmz, hpkt⟩
  unfold _XAie_StrmSlaveSlotConfig
  dsimp only
  rw [if_neg (not_ne_iff.mpr hready), if_neg hargs, if_neg htile,
    if_neg (not_le.mpr hs), if_neg (not_le.mpr hslot), hp]
  dsimp only
  rw [if_neg (not_le.mpr hpn), hq]
  dsimp only
  rw [u64_eq_of_lt hfit]

/-- C6 witness: on `testStrmMod` (slot base `0x800`, per-port stride `0x40`,
per-slot stride 4), enabling slot 3 of slave type 0, port 0 writes the packed
word `0x81020305` to address `0x80C`; disabling writes 0 there. -/
theorem slot_config_addr_value_witness :
    _XAie_StrmSlaveSlotConfig (some testDev) loc0 0 0 3 ⟨5, 0⟩ 3 1 2
      XAIE_ENABLE = some (.XAIE_OK, [(0x80C, 0x81020305)]) ∧
    _XAie_StrmSlaveSlotConfig (some testDev) loc0 0 0 3 ⟨5, 0⟩ 3 1 2
      XAIE_DISABLE = some (.XAIE_OK, [(0x80C, 0)]) := by
  constructor
  · exact (slot_config_addr_value testDev loc0 0 0 3 ⟨5, 0⟩ 3 1 2 XAIE_ENABLE
      ⟨0x100, 8⟩ ⟨0x800, 8⟩ rfl (by decide) (by decide) (by decide) (by decide)
      (by decide) (by decide) (by decide) (by decide) (by decide) (by decide)
      (by decide)).trans (by decide)
  · exact (slot_config_addr_value testDev loc0 0 0 3 ⟨5, 0⟩ 3 1 2 XAIE_DISABLE
      ⟨0x100, 8⟩ ⟨0x800, 8⟩ rfl (by decide) (by decide) (by decide) (by decide)
      (by decide) (by decide) (by decide) (by decide) (by decide) (by decide)
      (by decide)).trans (by decide)

/-! ## Claim C7: packet-switch master config word -/

/-- C7 counterexample: the claim states the config word handed to the master
builder is the full word packing drop-header, arbitration and select-enable,
and that the committed register reflects all three fields of that word; but
the builder's `Config` parameter is a `u8` (xaie_ss.c:155), so the `u32` word
assembled at xaie_ss.c:506-511 is truncated to its low byte at the call
(xaie_ss.c:515-516).  On a descriptor whose drop-header field is bit 8, the
assembled word for drop-header = 1 is `0x100`, the builder receives 0, and
the committed register value `0xC0000000` has drop-header 0, not the
assembled word's 1. -/
theorem pktsw_mstr_config_truncation_cex :
    XAie_StrmPktSwMstrPortEnable (some highDrpHdrDev) loc0 0 0 1 0 0 =
      some (.XAIE_OK, [(0, 0xC0000000)]) ∧
    XAie_SetField 1 highDrpHdrStrmMod.DrpHdr.Lsb highDrpHdrStrmMod.DrpHdr.Mask |||
      XAie_SetField 0 XAIE_SS_MASTER_PORT_ARBITOR_LSB
        XAIE_SS_MASTER_PORT_ARBITOR_MASK |||
      XAie_SetField 0 XAIE_SS_MASTER_PORT_MSELEN_LSB
        XAIE_SS_MASTER_PORT_MSELEN_MASK = 0x100 ∧
    XAie_GetField 0x100 highDrpHdrStrmMod.DrpHdr.Lsb
      highDrpHdrStrmMod.DrpHdr.Mask = 1 ∧
    XAie_GetField 0xC0000000 highDrpHdrStrmMod.DrpHdr.Lsb
      highDrpHdrStrmMod.DrpHdr.Mask = 0 := by
  refine ⟨by decide, by decide, by decide, by decide⟩

/-- C7 (amended): for every enabling call with in-range arguments, the config
word assembled is `pktSwMstrConfigWord` (drop-header, arbitration at offset
0, select-enable at offset 3), but the master builder receives only its low
byte (`u8` parameter, xaie_ss.c:155), is invoked with the caller's
packet-mode flag, and the committed register is `mstrEnableWord` built from
that truncated word. -/
theorem pktsw_mstr_config_amended (Dev : XAie_DevInst) (Loc : XAie_LocType)
    (Master MstrPortNum DropHeader Arbitor MSelEn PktEn : Nat)
    (p : XAie_StrmPort)
    (hready : Dev.IsReady = XAIE_COMPONENT_IS_READY)
    (harb : Arbitor ≤ XAIE_SS_ARBITOR_MAX) (hmsel : MSelEn ≤ XAIE_SS_MSELEN_MAX)
    (hm : Master < SS_PORT_TYPE_MAX)
    (htile : Dev.TileTypeOf Loc ≠ XAIEGBL_TILE_TYPE_MAX)
    (hp : (Dev.DevMod (Dev.TileTypeOf Loc)).MstrConfig[Master]? = some p)
    (hn : p.NumPorts ≠ 0) (hpn : MstrPortNum < p.NumPorts) :
    _StrmConfigMstr (Dev.DevMod (Dev.TileTypeOf Loc)) Master MstrPortNum
      XAIE_ENABLE PktEn
      (u8 (pktSwMstrConfigWord (Dev.DevMod (Dev.TileTypeOf Loc)) DropHeader
        Arbitor MSelEn)) =
      some (.ok (mstrEnableWord (Dev.DevMod (Dev.TileTypeOf Loc)) PktEn
        (u8 (pktSwMstrConfigWord (Dev.DevMod (Dev.TileTypeOf Loc)) DropHeader
          Arbitor MSelEn)),
        u32 (p.PortBaseAddr +
          (Dev.DevMod (Dev.TileTypeOf Loc)).PortOffset * MstrPortNum))) ∧
    _XAie_StrmPktSwMstrPortConfig (some Dev) Loc Master MstrPortNum DropHeader
      Arbitor MSelEn PktEn XAIE_ENABLE =
      some (.XAIE_OK, [(u64 (Dev.BaseAddr + Dev.TileAddrOf Loc.Row Loc.Col +
        u32 (p.PortBaseAddr +
          (Dev.DevMod (Dev.TileTypeOf Loc)).PortOffset * MstrPortNum)),
        mstrEnableWord (Dev.DevMod (Dev.TileTypeOf Loc)) PktEn
          (u8 (pktSwMstrConfigWord (Dev.DevMod (Dev.TileTypeOf Loc)) DropHeader
            Arbitor MSelEn)))]) := by
  have hb : _StrmConfigMstr (Dev.DevMod (Dev.TileTypeOf Loc)) Master MstrPortNum
      XAIE_ENABLE PktEn
      (u8 (pktSwMstrConfigWord (Dev.DevMod (Dev.TileTypeOf Loc)) DropHeader
        Arbitor MSelEn)) =
      some (.ok (mstrEnableWord (Dev.DevMod (Dev.TileTypeOf Loc)) PktEn
        (u8 (pktSwMstrConfigWord (Dev.DevMod (Dev.TileTypeOf Loc)) DropHeader
          Arbitor MSelEn)),
        u32 (p.PortBaseAddr +
          (Dev.DevMod (Dev.TileTypeOf Loc)).PortOffset * MstrPortNum))) := by
    unfold _StrmConfigMstr
    rw [hp]
    dsimp only
    rw [if_neg (by omega), if_neg (by simp)]
  refine ⟨hb, ?_⟩
  unfold _XAie_StrmPktSwMstrPortConfig
  dsimp only
  rw [if_neg (not_ne_iff.mpr hready),
    if_neg (not_or.mpr ⟨not_lt.mpr harb, not_lt.mpr hmsel⟩),
    if_neg (not_le.mpr hm), if_neg htile, if_pos rfl, hb]

/-- C7 witness: on `testStrmMod` (drop-header field at bit 6, inside the low
byte), enabling master type 0 port 0 with drop-header 1, arbitration 2,
select-enable 3 assembles config word `0x5A` and commits register value
`0xC000005A` at address 0. -/
theorem pktsw_mstr_config_amended_witness :
    _XAie_StrmPktSwMstrPortConfig (some testDev) loc0 0 0 1 2 3 1 XAIE_ENABLE =
      some (.XAIE_OK, [(0, 0xC000005A)]) :=
  ((pktsw_mstr_config_amended testDev loc0 0 0 1 2 3 1 ⟨0x0, 8⟩ rfl (by decide)
    (by decide) (by decide) (by decide) (by decide) (by decide)
    (by decide)).2).trans (by decide)

/-! ## Error-code helper lemmas -/

theorem getSlaveIdx_error_eq {sm : XAie_StrmMod} {Slave PortNum : Nat}
    {rc : AieRC} (h : _XAie_GetSlaveIdx sm Slave PortNum = some (.error rc)) :
    rc = .XAIE_ERR_STREAM_PORT := by
  unfold _XAie_GetSlaveIdx at h
  split at h
  · exact absurd h (by simp)
  · dsimp only at h
    split at h
    · simp only [Option.some.injEq, Except.error.injEq] at h
      exact h.symm
    · exact absurd h (by simp)

theorem configSlv_error_eq {sm : XAie_StrmMod} {PortType PortNum Enable
    PktEnable : Nat} {rc : AieRC}
    (h : _XAie_StrmConfigSlv sm PortType PortNum Enable PktEnable =
      some (.error rc)) : rc = .XAIE_ERR_STREAM_PORT := by
  unfold _XAie_StrmConfigSlv at h
  split at h
  · exact absurd h (by simp)
  · dsimp only at h
    split at h
    · simp only [Option.some.injEq, Except.error.injEq] at h
      exact h.symm
    · split at h
      · exact absurd h (by simp)
      · exact absurd h (by simp)

theorem configMstr_error_eq {sm : XAie_StrmMod} {PortType PortNum Enable
    PktEnable Config : Nat} {rc : AieRC}
    (h : _StrmConfigMstr sm PortType PortNum Enable PktEnable Config =
      some (.error rc)) : rc = .XAIE_ERR_STREAM_PORT := by
  unfold _StrmConfigMstr at h
  split at h
  · exact absurd h (by simp)
  · dsimp only at h
    split at h
    · simp only [Option.some.injEq, Except.error.injEq] at h
      exact h.symm
    · split at h
      · exact absurd h (by simp)
      · exact absurd h (by simp)

theorem getSlaveIdx_isSome (sm : XAie_StrmMod) (Slave PortNum : Nat)
    (h : Slave < sm.SlvConfig.length) :
    (_XAie_GetSlaveIdx sm Slave PortNum).isSome := by
  unfold _XAie_GetSlaveIdx
  rw [List.getElem?_eq_getElem h]
  dsimp only
  split <;> rfl

theorem configSlv_isSome (sm : XAie_StrmMod) (PortType PortNum Enable
    PktEnable : Nat) (h : PortType < sm.SlvConfig.length) :
    (_XAie_StrmConfigSlv sm PortType PortNum Enable PktEnable).isSome := by
  unfold _XAie_StrmConfigSlv
  rw [List.getElem?_eq_getElem h]
  dsimp only
  split
  · rfl
  · split <;> rfl

theorem configMstr_isSome (sm : XAie_StrmMod) (PortType PortNum Enable
    PktEnable Config : Nat) (h : PortType < sm.MstrConfig.length) :
    (_StrmConfigMstr sm PortType PortNum Enable PktEnable Config).isSome := by
  unfold _StrmConfigMstr
  rw [List.getElem?_eq_getElem h]
  dsimp only
  split
  · rfl
  · split <;> rfl

/-! ## Claim C1: circuit connect is compute-then-commit -/

/-- C1: for every circuit-connect call, a non-OK result comes with an empty
write list (no register write at all), and an OK result comes with exactly
two writes, the master register first and the slave register second, both
values built by the corresponding builders with packet-mode disabled
(`XAIE_DISABLE`) and the master's config word equal to the resolved slave
index. -/
theorem cct_compute_then_commit (DevInst : Option XAie_DevInst)
    (Loc : XAie_LocType) (Slave SlvPortNum Master MstrPortNum Enable : Nat)
    (RC : AieRC) (Writes : List RegWrite)
    (h : _XAie_StreamSwitchConfigureCct DevInst Loc Slave SlvPortNum Master
      MstrPortNum Enable = some (RC, Writes)) :
    (RC ≠ .XAIE_OK → Writes = []) ∧
    (RC = .XAIE_OK → ∃ Dev SlaveIdx MstrVal MstrOff SlvVal SlvOff,
      DevInst = some Dev ∧
      _XAie_GetSlaveIdx (Dev.DevMod (Dev.TileTypeOf Loc)) Slave SlvPortNum =
        some (.ok SlaveIdx) ∧
      _StrmConfigMstr (Dev.DevMod (Dev.TileTypeOf Loc)) Master MstrPortNum
        Enable XAIE_DISABLE SlaveIdx = some (.ok (MstrVal, MstrOff)) ∧
      _XAie_StrmConfigSlv (Dev.DevMod (Dev.TileTypeOf Loc)) Slave SlvPortNum
        Enable XAIE_DISABLE = some (.ok (SlvVal, SlvOff)) ∧
      Writes = [(u64 (Dev.BaseAddr + MstrOff + Dev.TileAddrOf Loc.Row Loc.Col),
          MstrVal),
        (u64 (Dev.BaseAddr + SlvOff + Dev.TileAddrOf Loc.Row Loc.Col),
          SlvVal)]) := by
  unfold _XAie_StreamSwitchConfigureCct at h
  cases DevInst with
  | none =>
    dsimp only at h
    simp only [Option.some.injEq, Prod.mk.injEq] at h
    obtain ⟨rfl, rfl⟩ := h
    exact ⟨fun _ => rfl, fun hk => absurd hk (by decide)⟩
  | some Dev =>
    dsimp only at h
    split at h
    · simp only [Option.some.injEq, Prod.mk.injEq] at h
      obtain ⟨rfl, rfl⟩ := h
      exact ⟨fun _ => rfl, fun hk => absurd hk (by decide)⟩
    · split at h
      · simp only [Option.some.injEq, Prod.mk.injEq] at h
        obtain ⟨rfl, rfl⟩ := h
        exact ⟨fun _ => rfl, fun hk => absurd hk (by decide)⟩
      · split at h
        · simp only [Option.some.injEq, Prod.mk.injEq] at h
          obtain ⟨rfl, rfl⟩ := h
          exact ⟨fun _ => rfl, fun hk => absurd hk (by decide)⟩
        · split at h
          · exact absurd h (by simp)
          · rename_i rc heq
            simp only [Option.some.injEq, Prod.mk.injEq] at h
            obtain ⟨rfl, rfl⟩ := h
            have hrc := getSlaveIdx_error_eq heq
            refine ⟨fun _ => rfl, fun hk => ?_⟩
            rw [hrc] at hk
            exact absurd hk (by decide)
          · rename_i SlaveIdx heq1
            split at h
            · exact absurd h (by simp)
            · rename_i rc heq2
              simp only [Option.some.injEq, Prod.mk.injEq] at h
              obtain ⟨rfl, rfl⟩ := h
              have hrc := configMstr_error_eq heq2
              refine ⟨fun _ => rfl, fun hk => ?_⟩
              rw [hrc] at hk
              exact absurd hk (by decide)
            · rename_i MstrVal MstrOff heq2
              split at h
              · exact absurd h (by simp)
              · rename_i rc heq3
                simp only [Option.some.injEq, Prod.mk.injEq] at h
                obtain ⟨rfl, rfl⟩ := h
                have hrc := configSlv_error_eq heq3
                refine ⟨fun _ => rfl, fun hk => ?_⟩
                rw [hrc] at hk
                exact absurd hk (by decide)
              · rename_i SlvVal SlvOff heq3
                simp only [Option.some.injEq, Prod.mk.injEq] at h
                obtain ⟨rfl, rfl⟩ := h
                exact ⟨fun hne => absurd rfl hne, fun _ =>
                  ⟨Dev, SlaveIdx, MstrVal, MstrOff, SlvVal, SlvOff, rfl, heq1,
                    heq2, heq3, rfl⟩⟩

/-- C1 witness: connecting slave type 1 port 2 to master type 0 port 1 on
`testDev` succeeds with exactly the master write `(4, 0x8000000A)` (config
word = resolved slave index 10) followed by the slave write `(0x128, 1)`;
the theorem applied there reproduces that decomposition. -/
theorem cct_compute_then_commit_witness :
    _XAie_StreamSwitchConfigureCct (some testDev) loc0 1 2 0 1 XAIE_ENABLE =
      some (.XAIE_OK, [(4, 0x8000000A), (0x128, 1)]) ∧
    (∃ Dev SlaveIdx MstrVal MstrOff SlvVal SlvOff,
      (some testDev : Option XAie_DevInst) = some Dev ∧
      _XAie_GetSlaveIdx (Dev.DevMod (Dev.TileTypeOf loc0)) 1 2 =
        some (.ok SlaveIdx) ∧
      _StrmConfigMstr (Dev.DevMod (Dev.TileTypeOf loc0)) 0 1 XAIE_ENABLE
        XAIE_DISABLE SlaveIdx = some (.ok (MstrVal, MstrOff)) ∧
      _XAie_StrmConfigSlv (Dev.DevMod (Dev.TileTypeOf loc0)) 1 2 XAIE_ENABLE
        XAIE_DISABLE = some (.ok (SlvVal, SlvOff)) ∧
      [((4 : Nat), (0x8000000A : Nat)), (0x128, 1)] =
        [(u64 (Dev.BaseAddr + MstrOff + Dev.TileAddrOf loc0.Row loc0.Col),
          MstrVal),
        (u64 (Dev.BaseAddr + SlvOff + Dev.TileAddrOf loc0.Row loc0.Col),
          SlvVal)]) :=
  ⟨by decide, (cct_compute_then_commit (some testDev) loc0 1 2 0 1 XAIE_ENABLE
    .XAIE_OK [(4, 0x8000000A), (0x128, 1)] (by decide)).2 rfl⟩

/-! ## Claim C9: position of the tile-type check in circuit connect -/

/-- C9 counterexample: the claim states that tile resolution is the first
step after the device check, so any call on a ready device with an
unresolvable location returns the invalid-tile code regardless of the port
arguments; but the source checks the port-type tags first (xaie_ss.c:230-233),
so with slave tag `SS_PORT_TYPE_MAX` the result is the stream-port error, not
the invalid-tile code. -/
theorem tile_check_order_cex :
    XAie_StrmConnCctEnable (some noTileDev) loc0 SS_PORT_TYPE_MAX 0 0 0 =
      some (.XAIE_ERR_STREAM_PORT, []) ∧
    noTileDev.IsReady = XAIE_COMPONENT_IS_READY ∧
    noTileDev.TileTypeOf loc0 = XAIEGBL_TILE_TYPE_MAX ∧
    AieRC.XAIE_ERR_STREAM_PORT ≠ AieRC.XAIE_INVALID_TILE :=
  ⟨by decide, rfl, rfl, by decide⟩

/-- C9 (amended): tile resolution happens after the device check and the
port-type range check: on a ready device, with both port-type tags in range,
an unresolvable location yields the invalid-tile code regardless of the port
numbers and the enable flag. -/
theorem tile_check_order_amended (Dev : XAie_DevInst) (Loc : XAie_LocType)
    (Slave SlvPortNum Master MstrPortNum Enable : Nat)
    (hready : Dev.IsReady = XAIE_COMPONENT_IS_READY)
    (hs : Slave < SS_PORT_TYPE_MAX) (hm : Master < SS_PORT_TYPE_MAX)
    (htile : Dev.TileTypeOf Loc = XAIEGBL_TILE_TYPE_MAX) :
    _XAie_StreamSwitchConfigureCct (some Dev) Loc Slave SlvPortNum Master
      MstrPortNum Enable = some (.XAIE_INVALID_TILE, []) := by
  unfold _XAie_StreamSwitchConfigureCct
  dsimp only
  rw [if_neg (not_ne_iff.mpr hready),
    if_neg (not_or.mpr ⟨not_le.mpr hs, not_le.mpr hm⟩), if_pos htile]

/-- C9 witness: on `noTileDev` with in-range port tags, circuit connect
returns the invalid-tile code. -/
theorem tile_check_order_amended_witness :
    _XAie_StreamSwitchConfigureCct (some noTileDev) loc0 0 0 0 0 XAIE_ENABLE =
      some (.XAIE_INVALID_TILE, []) :=
  tile_check_order_amended noTileDev loc0 0 0 0 0 XAIE_ENABLE rfl (by decide)
    (by decide) rfl

/-! ## Claim C8: error-code mapping -/

/-- C8 counterexample: the claim states that distinct violated preconditions
are distinguishable from the returned code, in particular a null/not-ready
device from an out-of-range field value, and an unsupported port-type tag
from an out-of-range port number; but a null device and arbitration 8 both
return `XAIE_INVALID_ARGS`, and a slave tag of 9 (out of the enumeration)
and a slave port number of 99 (out of range for a supported tag) both return
`XAIE_ERR_STREAM_PORT`. -/
theorem error_code_conflation_cex :
    _XAie_StrmPktSwMstrPortConfig none loc0 0 0 0 0 0 1 1 =
      some (.XAIE_INVALID_ARGS, []) ∧
    _XAie_StrmPktSwMstrPortConfig (some testDev) loc0 0 0 0 8 0 1 1 =
      some (.XAIE_INVALID_ARGS, []) ∧
    XAie_StrmConnCctEnable (some testDev) loc0 9 0 0 0 =
      some (.XAIE_ERR_STREAM_PORT, []) ∧
    XAie_StrmConnCctEnable (some testDev) loc0 0 99 0 0 =
      some (.XAIE_ERR_STREAM_PORT, []) :=
  ⟨by decide, by decide, by decide, by decide⟩

/-- C8 (amended): every validation failure returns exactly one of the three
error codes `XAIE_INVALID_ARGS`, `XAIE_INVALID_TILE`,
`XAIE_ERR_STREAM_PORT` and leaves zero writes; the invalid-tile code
unambiguously identifies its precondition (ready device, in-range field
values and port-type tag, unresolvable location), while the invalid-args
code conflates a null/not-ready device with an out-of-range field value
(shown by the exact characterization for the packet-switch master
configurator), and the stream-port code conflates an out-of-range tag with
an out-of-range port number. -/
theorem error_code_mapping_amended :
    (∀ (Loc : XAie_LocType) (Master MstrPortNum DropHeader Arbitor MSelEn
      PktEn Enable : Nat),
      _XAie_StrmPktSwMstrPortConfig none Loc Master MstrPortNum DropHeader
        Arbitor MSelEn PktEn Enable = some (.XAIE_INVALID_ARGS, [])) ∧
    (∀ (Dev : XAie_DevInst) (Loc : XAie_LocType) (Master MstrPortNum DropHeader
      Arbitor MSelEn PktEn Enable : Nat) (RC : AieRC) (Writes : List RegWrite),
      _XAie_StrmPktSwMstrPortConfig (some Dev) Loc Master MstrPortNum
        DropHeader Arbitor MSelEn PktEn Enable = some (RC, Writes) →
      (RC ≠ .XAIE_OK → Writes = []) ∧
      (RC = .XAIE_INVALID_ARGS ↔ Dev.IsReady ≠ XAIE_COMPONENT_IS_READY ∨
        XAIE_SS_ARBITOR_MAX < Arbitor ∨ XAIE_SS_MSELEN_MAX < MSelEn) ∧
      (RC = .XAIE_INVALID_TILE ↔ Dev.IsReady = XAIE_COMPONENT_IS_READY ∧
        Arbitor ≤ XAIE_SS_ARBITOR_MAX ∧ MSelEn ≤ XAIE_SS_MSELEN_MAX ∧
        Master < SS_PORT_TYPE_MAX ∧
        Dev.TileTypeOf Loc = XAIEGBL_TILE_TYPE_MAX)) ∧
    (∀ (DevInst : Option XAie_DevInst) (Loc : XAie_LocType)
      (Slave SlvPortNum Master MstrPortNum Enable : Nat) (RC : AieRC)
      (Writes : List RegWrite),
      _XAie_StreamSwitchConfigureCct DevInst Loc Slave SlvPortNum Master
        MstrPortNum Enable = some (RC, Writes) → RC ≠ .XAIE_OK → Writes = []) ∧
    (∀ (DevInst : Option XAie_DevInst) (Loc : XAie_LocType)
      (Slave SlvPortNum EnPkt Enable : Nat) (RC : AieRC)
      (Writes : List RegWrite),
      _XAie_StrmSlavePortConfig DevInst Loc Slave SlvPortNum EnPkt Enable =
        some (RC, Writes) → RC ≠ .XAIE_OK → Writes = []) ∧
    (∀ (DevInst : Option XAie_DevInst) (Loc : XAie_LocType)
      (Slave SlvPortNum SlotNum : Nat) (Pkt : XAie_Packet)
      (Mask MSel Arbitor Enable : Nat) (RC : AieRC) (Writes : List RegWrite),
      _XAie_StrmSlaveSlotConfig DevInst Loc Slave SlvPortNum SlotNum Pkt Mask
        MSel Arbitor Enable = some (RC, Writes) → RC ≠ .XAIE_OK →
        Writes = []) := by
  refine ⟨?_, ?_, ?_, ?_, ?_⟩
  · intro Loc Master MstrPortNum DropHeader Arbitor MSelEn PktEn Enable
    rfl
  · intro Dev Loc Master MstrPortNum DropHeader Arbitor MSelEn PktEn Enable
      RC Writes h
    unfold _XAie_StrmPktSwMstrPortConfig at h
    dsimp only at h
    split at h
    · rename_i hnr
      simp only [Option.some.injEq, Prod.mk.injEq] at h
      obtain ⟨rfl, rfl⟩ := h
      exact ⟨fun _ => rfl, iff_of_true rfl (Or.inl hnr),
        iff_of_false (by decide) (fun hc => hnr hc.1)⟩
    · rename_i hnr
      split at h
      · rename_i hab
        simp only [Option.some.injEq, Prod.mk.injEq] at h
        obtain ⟨rfl, rfl⟩ := h
        refine ⟨fun _ => rfl, iff_of_true rfl (Or.inr hab),
          iff_of_false (by decide) (fun hc => ?_)⟩
        rcases hab with h1 | h1
        · exact absurd hc.2.1 (not_le.mpr h1)
        · exact absurd hc.2.2.1 (not_le.mpr h1)
      · rename_i hnab
        split at h
        · rename_i hmge
          simp only [Option.some.injEq, Prod.mk.injEq] at h
          obtain ⟨rfl, rfl⟩ := h
          refine ⟨fun _ => rfl, iff_of_false (by decide) ?_,
            iff_of_false (by decide) ?_⟩
          · intro hc
            rcases hc with hc | hc
            · exact hnr hc
            · exact hnab hc
          · intro hc
            exact absurd hc.2.2.2.1 (not_lt.mpr hmge)
        · rename_i hnm
          split at h
          · rename_i htile
            simp only [Option.some.injEq, Prod.mk.injEq] at h
            obtain ⟨rfl, rfl⟩ := h
            have hno := not_or.mp hnab
            refine ⟨fun _ => rfl, iff_of_false (by decide) ?_,
              iff_of_true rfl ⟨not_ne_iff.mp hnr, not_lt.mp hno.1,
                not_lt.mp hno.2, not_le.mp hnm, htile⟩⟩
            intro hc
            rcases hc with hc | hc
            · exact hnr hc
            · exact hnab hc
          · rename_i hnt
            split at h
            · exact absurd h (by simp)
            · rename_i rc heq
              have hrc := configMstr_error_eq heq
              subst hrc
              simp only [Option.some.injEq, Prod.mk.injEq] at h
              obtain ⟨rfl, rfl⟩ := h
              refine ⟨fun _ => rfl, iff_of_false (by decide) ?_,
                iff_of_false (by decide) ?_⟩
              · intro hc
                rcases hc with hc | hc
                · exact hnr hc
                · exact hnab hc
              · intro hc
                exact hnt hc.2.2.2.2
            · rename_i RegVal RegOff heq
              simp only [Option.some.injEq, Prod.mk.injEq] at h
              obtain ⟨rfl, rfl⟩ := h
              refine ⟨fun hne => absurd rfl hne, iff_of_false (by decide) ?_,
                iff_of_false (by decide) ?_⟩
              · intro hc
                rcases hc with hc | hc
                · exact hnr hc
                · exact hnab hc
              · intro hc
                exact hnt hc.2.2.2.2
  · intro DevInst Loc Slave SlvPortNum Master MstrPortNum Enable RC Writes h
      hne
    unfold _XAie_StreamSwitchConfigureCct at h
    cases DevInst with
    | none =>
      dsimp only at h
      simp only [Option.some.injEq, Prod.mk.injEq] at h
      exact h.2.symm
    | some Dev =>
      dsimp only at h
      split at h
      · simp only [Option.some.injEq, Prod.mk.injEq] at h
        exact h.2.symm
      · split at h
        · simp only [Option.some.injEq, Prod.mk.injEq] at h
          exact h.2.symm
        · split at h
          · simp only [Option.some.injEq, Prod.mk.injEq] at h
            exact h.2.symm
          · split at h
            · exact absurd h (by simp)
            · simp only [Option.some.injEq, Prod.mk.injEq] at h
              exact h.2.symm
            · split at h
              · exact absurd h (by simp)
              · simp only [Option.some.injEq, Prod.mk.injEq] at h
                exact h.2.symm
              · split at h
                · exact absurd h (by simp)
                · simp only [Option.some.injEq, Prod.mk.injEq] at h
                  exact h.2.symm
                · simp only [Option.some.injEq, Prod.mk.injEq] at h
                  exact absurd h.1.symm hne
  · intro DevInst Loc Slave SlvPortNum EnPkt Enable RC Writes h hne
    unfold _XAie_StrmSlavePortConfig at h
    cases DevInst with
    | none =>
      dsimp only at h
      simp only [Option.some.injEq, Prod.mk.injEq] at h
      exact h.2.symm
    | some Dev =>
      dsimp only at h
      split at h
      · simp only [Option.some.injEq, Prod.mk.injEq] at h
        exact h.2.symm
      · split at h
        · simp only [Option.some.injEq, Prod.mk.injEq] at h
          exact h.2.symm
        · split at h
          · simp only [Option.some.injEq, Prod.mk.injEq] at h
            exact h.2.symm
          · split at h
            · exact absurd h (by simp)
            · simp only [Option.some.injEq, Prod.mk.injEq] at h
              exact h.2.symm
            · simp only [Option.some.injEq, Prod.mk.injEq] at h
              exact absurd h.1.symm hne
  · intro DevInst Loc Slave SlvPortNum SlotNum Pkt Mask MSel Arbitor Enable
      RC Writes h hne
    unfold _XAie_StrmSlaveSlotConfig at h
    cases DevInst with
    | none =>
      dsimp only at h
      simp only [Option.some.injEq, Prod.mk.injEq] at h
      exact h.2.symm
    | some Dev =>
      dsimp only at h
      split at h
      · simp only [Option.some.injEq, Prod.mk.injEq] at h
        exact h.2.symm
      · split at h
        · simp only [Option.some.injEq, Prod.mk.injEq] at h
          exact h.2.symm
        · split at h
          · simp only [Option.some.injEq, Prod.mk.injEq] at h
            exact h.2.symm
          · split at h
            · simp only [Option.some.injEq, Prod.mk.injEq] at h
              exact h.2.symm
            · split at h
              · simp only [Option.some.injEq, Prod.mk.injEq] at h
                exact h.2.symm
              · split at h
                · exact absurd h (by simp)
                · split at h
                  · simp only [Option.some.injEq, Prod.mk.injEq] at h
                    exact h.2.symm
                  · split at h
                    · exact absurd h (by simp)
                    · simp only [Option.some.injEq, Prod.mk.injEq] at h
                      exact absurd h.1.symm hne

/-- C8 witness: the amended mapping evaluated on concrete failures: a
not-ready device and arbitration 8 both map to the invalid-args code with no
writes, and an unresolvable tile maps to the invalid-tile code. -/
theorem error_code_mapping_amended_witness :
    _XAie_StrmPktSwMstrPortConfig (some noTileDev) loc0 0 0 0 0 0 1 1 =
      some (.XAIE_INVALID_TILE, []) ∧
    ((AieRC.XAIE_INVALID_TILE ≠ AieRC.XAIE_OK → ([] : List RegWrite) = []) ∧
      (AieRC.XAIE_INVALID_TILE = .XAIE_INVALID_ARGS ↔
        noTileDev.IsReady ≠ XAIE_COMPONENT_IS_READY ∨
        XAIE_SS_ARBITOR_MAX < 0 ∨ XAIE_SS_MSELEN_MAX < 0) ∧
      (AieRC.XAIE_INVALID_TILE = .XAIE_INVALID_TILE ↔
        noTileDev.IsReady = XAIE_COMPONENT_IS_READY ∧
        0 ≤ XAIE_SS_ARBITOR_MAX ∧ 0 ≤ XAIE_SS_MSELEN_MAX ∧
        0 < SS_PORT_TYPE_MAX ∧
        noTileDev.TileTypeOf loc0 = XAIEGBL_TILE_TYPE_MAX)) :=
  ⟨by decide, error_code_mapping_amended.2.1 noTileDev loc0 0 0 0 0 0 1 1
    .XAIE_INVALID_TILE [] (by decide)⟩

/-! ## Claim C10: descriptor-table accesses stay in bounds -/

/-- Well-formedness of the externally supplied descriptor tables: each of
the three per-port-type arrays has exactly `SS_PORT_TYPE_MAX` entries (the
headers declare them with that size, indexed by the port-type enumeration). -/
def WellFormedStrmMod (sm : XAie_StrmMod) : Prop :=
  sm.SlvConfig.length = SS_PORT_TYPE_MAX ∧
  sm.MstrConfig.length = SS_PORT_TYPE_MAX ∧
  sm.SlvSlotConfig.length = SS_PORT_TYPE_MAX

/-- C10: on a device whose descriptor tables are well-formed, no entry point
ever performs an out-of-bounds descriptor-table access (the `none` result
that models one): every guard on the port-type tag runs before the
corresponding table access, including the short-circuit in the slot
configurator, so every execution is defined. -/
theorem descriptor_access_in_bounds (Dev : XAie_DevInst)
    (hwf : ∀ t, WellFormedStrmMod (Dev.DevMod t)) :
    ∀ (Loc : XAie_LocType) (Slave SlvPortNum Master MstrPortNum Enable EnPkt
      SlotNum DropHeader Arbitor MSelEn PktEn : Nat) (Pkt : XAie_Packet)
      (Mask MSel : Nat),
      (_XAie_StreamSwitchConfigureCct (some Dev) Loc Slave SlvPortNum Master
        MstrPortNum Enable).isSome ∧
      (_XAie_StrmSlavePortConfig (some Dev) Loc Slave SlvPortNum EnPkt
        Enable).isSome ∧
      (_XAie_StrmPktSwMstrPortConfig (some Dev) Loc Master MstrPortNum
        DropHeader Arbitor MSelEn PktEn Enable).isSome ∧
      (_XAie_StrmSlaveSlotConfig (some Dev) Loc Slave SlvPortNum SlotNum Pkt
        Mask MSel Arbitor Enable).isSome := by
  intro Loc Slave SlvPortNum Master MstrPortNum Enable EnPkt SlotNum
    DropHeader Arbitor MSelEn PktEn Pkt Mask MSel
  refine ⟨?_, ?_, ?_, ?_⟩
  · unfold _XAie_StreamSwitchConfigureCct
    dsimp only
    split
    · rfl
    · split
      · rfl
      · split
        · rfl
        · rename_i hports htile
          have hs : Slave < (Dev.DevMod (Dev.TileTypeOf Loc)).SlvConfig.length := by
            have hl := (hwf (Dev.TileTypeOf Loc)).1
            omega
          obtain ⟨r, hr⟩ := Option.isSome_iff_exists.mp
            (getSlaveIdx_isSome _ _ SlvPortNum hs)
          rw [hr]
          cases r with
          | error rc => rfl
          | ok SlaveIdx =>
            have hm : Master <
                (Dev.DevMod (Dev.TileTypeOf Loc)).MstrConfig.length := by
              have hl := (hwf (Dev.TileTypeOf Loc)).2.1
              omega
            obtain ⟨r2, hr2⟩ := Option.isSome_iff_exists.mp
              (configMstr_isSome _ _ MstrPortNum Enable XAIE_DISABLE SlaveIdx hm)
            dsimp only
            rw [hr2]
            cases r2 with
            | error rc => rfl
            | ok pr =>
              obtain ⟨MstrVal, MstrOff⟩ := pr
              obtain ⟨r3, hr3⟩ := Option.isSome_iff_exists.mp
                (configSlv_isSome _ _ SlvPortNum Enable XAIE_DISABLE hs)
              dsimp only
              rw [hr3]
              cases r3 with
              | error rc => rfl
              | ok pr2 =>
                obtain ⟨SlvVal, SlvOff⟩ := pr2
                rfl
  · unfold _XAie_StrmSlavePortConfig
    dsimp only
    split
    · rfl
    · split
      · rfl
      · split
        · rfl
        · rename_i hports htile
          have hs : Slave < (Dev.DevMod (Dev.TileTypeOf Loc)).SlvConfig.length := by
            have hl := (hwf (Dev.TileTypeOf Loc)).1
            omega
          obtain ⟨r, hr⟩ := Option.isSome_iff_exists.mp
            (configSlv_isSome _ _ SlvPortNum EnPkt Enable hs)
          rw [hr]
          cases r with
          | error rc => rfl
          | ok pr =>
            obtain ⟨RegVal, RegOff⟩ := pr
            rfl
  · unfold _XAie_StrmPktSwMstrPortConfig
    dsimp only
    split
    · rfl
    · split
      · rfl
      · split
        · rfl
        · split
          · rfl
          · rename_i hnab hports htile
            have hm : Master <
                (Dev.DevMod (Dev.TileTypeOf Loc)).MstrConfig.length := by
              have hl := (hwf (Dev.TileTypeOf Loc)).2.1
              omega
            obtain ⟨r, hr⟩ := Option.isSome_iff_exists.mp
              (configMstr_isSome _ _ MstrPortNum Enable PktEn _ hm)
            rw [hr]
            cases r with
            | error rc => rfl
            | ok pr =>
              obtain ⟨RegVal, RegOff⟩ := pr
              rfl
  · unfold _XAie_StrmSlaveSlotConfig
    dsimp only
    split
    · rfl
    · split
      · rfl
      · split
        · rfl
        · split
          · rfl
          · split
            · rfl
            · rename_i hnab htile hports hslots
              have hs : Slave <
                  (Dev.DevMod (Dev.TileTypeOf Loc)).SlvConfig.length := by
                have hl := (hwf (Dev.TileTypeOf Loc)).1
                omega
              have hs2 : Slave <
                  (Dev.DevMod (Dev.TileTypeOf Loc)).SlvSlotConfig.length := by
                have hl := (hwf (Dev.TileTypeOf Loc)).2.2
                omega
              rw [List.getElem?_eq_getElem hs]
              dsimp only
              split
              · rfl
              · rw [List.getElem?_eq_getElem hs2]
                dsimp only
                rfl

/-- C10 witness: `testDev` has well-formed tables and each entry point is
defined on a sample input. -/
theorem descriptor_access_in_bounds_witness :
    (∀ t, WellFormedStrmMod (testDev.DevMod t)) ∧
    ((_XAie_StreamSwitchConfigureCct (some testDev) loc0 8 0 8 0 1).isSome ∧
      (_XAie_StrmSlavePortConfig (some testDev) loc0 8 0 1 1).isSome ∧
      (_XAie_StrmPktSwMstrPortConfig (some testDev) loc0 8 0 0 0 0 1 1).isSome ∧
      (_XAie_StrmSlaveSlotConfig (some testDev) loc0 8 0 0 ⟨0, 0⟩ 0 0 0
        1).isSome) :=
  ⟨fun _ => ⟨rfl, rfl, rfl⟩, descriptor_access_in_bounds testDev
    (fun _ => ⟨rfl, rfl, rfl⟩) loc0 8 0 8 0 1 1 0 0 0 0 1 ⟨0, 0⟩ 0 0⟩

end XAieSS
